import Mathlib

/-!
Shallow embedding of the drawer-mode `Group` module of a status-bar
application (source: src/group.cpp). A `Group` optionally behaves as a
"drawer": a collapsible sub-region that reveals its contents on demand and
auto-hides after an idle interval. We model

* the configuration extraction performed by the constructor (orientation
  handling, drawer sub-fields, interval parsing), over a small model of
  jsoncpp JSON values;
* the reveal state machine: `show_group` / `hide_group`, the pointer
  enter/leave handlers, the click toggle handler `handleToggle`, the
  external-signal entry point `refresh`, and the body of the background
  timer task;
* the child-placement bookkeeping `getBox` / `addWidget`.

Machine state that in the C++ lives in GTK widgets is modelled by the bits
the code reads back: the PRELIGHT state flag of the main box (the
persistent "active" visual marker) and the reveal-child property of the
revealer.
-/

namespace Waybar

/-! ## JSON model (jsoncpp `Json::Value`)

Only the value shapes the configuration code can meet are modelled:
null, booleans, integers, strings and objects. -/

inductive Json where
  | null : Json
  | bool (b : Bool) : Json
  | int (i : Int) : Json
  | str (s : String) : Json
  | obj (fields : List (String × Json)) : Json

/-- Member access `value["key"]` of jsoncpp: on an object, the named member
or null when absent; on null, null. (On other value kinds jsoncpp asserts;
the source only indexes the configuration objects.) -/
def Json.get (j : Json) (key : String) : Json :=
  match j with
  | .obj fields =>
    match fields.find? (fun p => p.1 == key) with
    | some p => p.2
    | none => .null
  | _ => .null

/-- The `empty()` predicate of jsoncpp: true for null and for empty arrays
and objects, false for every other value. -/
def Json.isEmptyVal : Json → Bool
  | .null => true
  | .obj fields => fields.isEmpty
  | _ => false

/-- The `isObject()` predicate of jsoncpp (null is not an object). -/
def Json.isObject : Json → Bool
  | .obj _ => true
  | _ => false

/-- The `isInt()` predicate of jsoncpp, restricted to our value model. -/
def Json.isInt : Json → Bool
  | .int _ => true
  | _ => false

/-- The `isUInt()` predicate of jsoncpp: an integral value that is
non-negative (representable as an unsigned int). -/
def Json.isUInt : Json → Bool
  | .int i => decide (0 ≤ i)
  | _ => false

/-- The `isString()` predicate of jsoncpp. -/
def Json.isString : Json → Bool
  | .str _ => true
  | _ => false

/-- The `isBool()` predicate of jsoncpp. -/
def Json.isBool : Json → Bool
  | .bool _ => true
  | _ => false

/-- The `asString()` conversion of jsoncpp: null becomes "", booleans
become "true"/"false", integers are printed, and non-convertible values
(objects) raise `Json::LogicError`, modelled as `Except.error`. -/
def Json.asStringE : Json → Except String String
  | .null => .ok ""
  | .str s => .ok s
  | .bool b => .ok (if b then "true" else "false")
  | .int i => .ok (toString i)
  | .obj _ => .error "Type is not convertible to string"

/-- The `asBool()` conversion of jsoncpp: null is false, numbers compare
against zero, and non-convertible values (strings, objects) raise
`Json::LogicError`, modelled as `Except.error`. -/
def Json.asBoolE : Json → Except String Bool
  | .null => .ok false
  | .bool b => .ok b
  | .int i => .ok (decide (i ≠ 0))
  | .str _ => .error "Value is not convertible to bool"
  | .obj _ => .error "Value is not convertible to bool"

/-- The `asUInt()` conversion of jsoncpp, used in the source only under an
`isUInt()` guard, so only the non-negative integer case is reachable. -/
def Json.asUInt : Json → Nat
  | .int i => i.toNat
  | _ => 0

/-- Comparison `value == "once"` of jsoncpp: values of different kinds
compare unequal, strings compare by contents. -/
def Json.eqStr (j : Json) (s : String) : Bool :=
  match j with
  | .str t => t == s
  | _ => false

/-! ## Configuration extraction (the constructor, lines 37-96) -/

/-- Drawer parameters extracted at lines 56-65 plus the timer setup of
lines 83-95. `timer = some iv` means the background timer thread was
started with sleeping interval `iv`; `iv = none` models
`std::chrono::seconds::max()`, the effectively-disabled interval. -/
structure DrawerInit where
  transitionDuration : Int
  childClass : String
  leftToRight : Bool
  clickToReveal : Bool
  timer : Option (Option Nat)
  deriving DecidableEq, Repr

/-- Result of the constructor: the final orientation of the main box
(true = vertical) and the drawer parameters when drawer mode is on. -/
structure GroupInit where
  boxVertical : Bool
  drawer : Option DrawerInit
  deriving DecidableEq, Repr

/-- The `is_drawer` member: set to true exactly when `config["drawer"]`
is an object. -/
def GroupInit.isDrawer (g : GroupInit) : Bool := g.drawer.isSome

/-- The `click_to_reveal` member. Modelled from the spec: its in-class
initializer lives in group.hpp, which is not part of the source file;
per the specification the default is false, and the constructor assigns
it only in drawer mode. -/
def GroupInit.clickToReveal (g : GroupInit) : Bool :=
  match g.drawer with
  | some d => d.clickToReveal
  | none => false

/-- Interval computation of lines 84-86:
`(config["interval"] == "once" || !config["interval"].isUInt()) ?
 seconds::max() : seconds(config["interval"].asUInt())`.
`none` models `seconds::max()` (the disabled interval). -/
def intervalOf (j : Json) : Option Nat :=
  if j.eqStr "once" || !j.isUInt then none else some j.asUInt

/-- Whether a sleep of the given interval can end by timeout at all:
`none` models `seconds::max()`, a sleep that in practice only ends when
the thread is explicitly woken. -/
def canTimeout (iv : Option Nat) : Bool := iv.isSome

/-- Drawer field extraction of lines 56-65:
`transition-duration` (`isInt() ? asInt() : 500`),
`children-class` (`isString() ? asString() : "drawer-child"`),
`transition-left-to-right` (`isBool() ? asBool() : true`), and the
unguarded `click-to-reveal = drawer_config["click-to-reveal"].asBool()`,
whose jsoncpp conversion fails on non-convertible values. Only that
conversion can fail, so it is matched on first; the three guarded
extractions are pure. The timer thread of lines 83-95 is created only
when `click_to_reveal` is false. -/
def extractDrawer (dc : Json) (intervalJson : Json) : Except String DrawerInit :=
  match (dc.get "click-to-reveal").asBoolE with
  | .error e => .error e
  | .ok ctr =>
    .ok
      { transitionDuration :=
          match dc.get "transition-duration" with
          | .int i => i
          | _ => 500
        childClass :=
          match dc.get "children-class" with
          | .str s => s
          | _ => "drawer-child"
        leftToRight :=
          match dc.get "transition-left-to-right" with
          | .bool b => b
          | _ => true
        clickToReveal := ctr
        timer := if !ctr then some (intervalOf intervalJson) else none }

/-- Orientation handling of lines 37-50: an empty value (jsoncpp
`empty()`) defaults to "orthogonal"; "inherit" keeps the passed
orientation, "orthogonal" flips it, "vertical"/"horizontal" force it;
any other string throws `std::runtime_error`. The result is the final
box orientation (true = vertical). -/
def orientationOf (oJson : Json) (vertical : Bool) : Except String Bool :=
  match (if oJson.isEmptyVal then Except.ok "orthogonal" else oJson.asStringE) with
  | .error e => .error e
  | .ok o =>
    if o = "inherit" then .ok vertical
    else if o = "orthogonal" then .ok (!vertical)
    else if o = "vertical" then .ok true
    else if o = "horizontal" then .ok false
    else .error ("Invalid orientation value: " ++ o)

/-- The `Group` constructor, lines 27-99, restricted to the state it
computes: box orientation, `is_drawer`, and the drawer parameters.
Construction fails exactly where the C++ constructor throws. -/
def construct (config : Json) (vertical : Bool) : Except String GroupInit :=
  match orientationOf (config.get "orientation") vertical with
  | .error e => .error e
  | .ok bv =>
    if (config.get "drawer").isObject then
      match extractDrawer (config.get "drawer") (config.get "interval") with
      | .error e => .error e
      | .ok d => .ok ⟨bv, some d⟩
    else
      .ok ⟨bv, none⟩

/-! ## Reveal state machine -/

/-- Mutable controller state shared between the event handlers and the
timer task: `prelight` is the PRELIGHT state flag of the main box (the
persistent "active" visual marker), `revealed` the reveal-child property
of the revealer (the reveal state: true = Revealed, false = Hidden),
`free` the `free_` member (pointer outside the hit region), `reset` the
`reset_` member (pending external reveal request). -/
structure GState where
  prelight : Bool
  revealed : Bool
  free : Bool
  reset : Bool
  deriving DecidableEq, Repr

/-- Per-instance parameters the handlers read: `click_to_reveal`,
`is_drawer`, and the value of `config["signal"].asInt()`. -/
structure Config where
  isDrawer : Bool
  clickToReveal : Bool
  signalNum : Int
  deriving DecidableEq, Repr

/-- Linux base real-time signal number `SIGRTMIN` (glibc value; the
theorems treat it symbolically). -/
def SIGRTMIN : Int := 34

/-- Lines 101-104: set the PRELIGHT flag on the box and reveal the
revealer child. -/
def show_group (st : GState) : GState :=
  { st with prelight := true, revealed := true }

/-- Lines 106-109: clear the PRELIGHT flag on the box and hide the
revealer child. -/
def hide_group (st : GState) : GState :=
  { st with prelight := false, revealed := false }

/-- Lines 111-117, `handleMouseEnter`: in hover mode, mark the pointer as
occupying the region and show the drawer; always returns false. -/
def handleMouseEnter (cfg : Config) (st : GState) : GState × Bool :=
  if !cfg.clickToReveal then
    (show_group { st with free := false }, false)
  else
    (st, false)

/-- The `detail` field of a GDK crossing event; `inferior` means the
pointer moved into a child window of the region. -/
inductive GdkNotifyType where
  | ancestor
  | virtualCross
  | inferior
  | nonlinear
  | nonlinearVirtual
  | unknown
  deriving DecidableEq, Repr

/-- Lines 119-125, `handleMouseLeave`: in hover mode, unless the leave is
into a descendant (`GDK_NOTIFY_INFERIOR`), mark the pointer free and hide
the drawer; always returns false. -/
def handleMouseLeave (cfg : Config) (detail : GdkNotifyType) (st : GState) :
    GState × Bool :=
  if !cfg.clickToReveal && detail ≠ GdkNotifyType.inferior then
    (hide_group { st with free := true }, false)
  else
    (st, false)

/-- Lines 127-137, `handleToggle`: ignored unless in click-to-reveal mode
and the button is the primary button (1); otherwise toggles according to
the PRELIGHT flag of the box and reports the event as handled. -/
def handleToggle (cfg : Config) (button : Nat) (st : GState) : GState × Bool :=
  if !cfg.clickToReveal || button ≠ 1 then
    (st, false)
  else if st.prelight then
    (hide_group st, true)
  else
    (show_group st, true)

/-- Lines 139-149, `refresh(sig)`: on the configured signal, synthesize a
primary-button click; when `handleToggle` does not handle it (hover mode)
and the pointer is free, request a reveal (`reset_ = true`) and wake the
timer thread. The boolean result records whether `thread_.wake_up()` was
called. -/
def refresh (cfg : Config) (sig : Int) (st : GState) : GState × Bool :=
  if sig = SIGRTMIN + cfg.signalNum then
    let t := handleToggle cfg 1 st
    if !t.2 then
      if t.1.free then ({ t.1 with reset := true }, true) else (t.1, false)
    else
      (t.1, false)
  else
    (st, false)

/-- Lines 88-91, the part of the timer-task loop body executed before the
sleep: when the pointer is free and a reveal is pending, show the drawer
and clear the pending flag. -/
def timerPreSleep (st : GState) : GState :=
  if st.free && st.reset then
    { show_group st with reset := false }
  else
    st

/-- Line 93, the part of the timer-task loop body executed after waking
from `thread_.sleep_for(interval_)`: when the pointer is free and no
reveal is pending, hide the drawer. -/
def timerPostWake (st : GState) : GState :=
  if st.free && !st.reset then hide_group st else st

/-- Lines 87-94, one iteration of the timer-task loop body, as executed
when no event-handler interleaves during the sleep: the pre-sleep step,
the sleep (which does not itself change the controller state), then the
post-wake step. -/
def timerBody (st : GState) : GState :=
  timerPostWake (timerPreSleep st)

/-- Modelled from the spec: the wiring that connects the pointer, click
and signal events of the toolkit to the handlers above lives in group.hpp
and the AModule base class, which are not part of the drawer source file.
The specification states the transitions are "guarded by `isDrawer`; when
`isDrawer` is false the controller is inert". The signal entry point
`refresh` is a virtual method invoked for every module regardless of
drawer mode, so it is dispatched unconditionally. -/
inductive GEvent where
  | enter
  | leave (detail : GdkNotifyType)
  | click (button : Nat)
  | trigger (sig : Int)
  deriving DecidableEq, Repr

/-- Modelled from the spec: event dispatch, routing toolkit events to the
handlers of src/group.cpp, with pointer and click events delivered only
in drawer mode (see `GEvent`). -/
def dispatchEvent (cfg : Config) (ev : GEvent) (st : GState) : GState :=
  match ev with
  | .enter => if cfg.isDrawer then (handleMouseEnter cfg st).1 else st
  | .leave d => if cfg.isDrawer then (handleMouseLeave cfg d st).1 else st
  | .click b => if cfg.isDrawer then (handleToggle cfg b st).1 else st
  | .trigger sig => (refresh cfg sig st).1

/-! ## Child placement (lines 155-165) -/

/-- Which box `getBox` returns: the main box or the revealer box. -/
inductive TargetBox where
  | primaryBox
  | overlayBox
  deriving DecidableEq, Repr

/-- Placement bookkeeping: the children packed into the main box and into
the revealer box (in pack order; `pack_start` appends to the end of the
start-packed sequence), the widgets that received the drawer-children
style class (in order of application), and the `is_first_widget` member,
whose in-class initializer (group.hpp) is true. Widgets are identified by
numbers. -/
structure PackState where
  primary : List Nat
  overlay : List Nat
  styled : List Nat
  is_first_widget : Bool
  deriving DecidableEq, Repr

/-- Placement state of a freshly constructed Group. Modelled from the
spec: the in-class initializer of `is_first_widget` lives in group.hpp,
which is not part of the source file; it is true per the specification
rule that the first added child is special. -/
def initPack : PackState := ⟨[], [], [], true⟩

/-- Line 155, `getBox`: the revealer box only in drawer mode and only once
the first widget has been added. -/
def getBox (is_drawer : Bool) (st : PackState) : TargetBox :=
  if is_drawer then
    if st.is_first_widget then .primaryBox else .overlayBox
  else
    .primaryBox

/-- Lines 157-165, `addWidget`: pack into the box chosen by `getBox`, tag
non-first drawer children with the drawer-children class, then clear
`is_first_widget`. -/
def addWidget (is_drawer : Bool) (w : Nat) (st : PackState) : PackState :=
  let st1 :=
    match getBox is_drawer st with
    | .primaryBox => { st with primary := st.primary ++ [w] }
    | .overlayBox => { st with overlay := st.overlay ++ [w] }
  let st2 :=
    if is_drawer && !st.is_first_widget then
      { st1 with styled := st1.styled ++ [w] }
    else
      st1
  { st2 with is_first_widget := false }

/-- A sequence of `addWidget` calls, in call order. -/
def addAll (is_drawer : Bool) (ws : List Nat) (st : PackState) : PackState :=
  ws.foldl (fun s w => addWidget is_drawer w s) st

/-- The persistent visual marker (PRELIGHT) agrees with the reveal state. -/
def consistent (st : GState) : Prop := st.prelight = st.revealed

/-! ## Theorems -/

/-- Claim C1: for a drawer-mode Group with clickToReveal false, each
iteration of the timer-task loop body (1) shows the drawer and clears the
pending-reveal flag when the pointer is free and a reveal is pending,
(2) sleeps for the configured interval or until woken, the interval being
the never-timing-out sentinel when configured as "once", and (3) after
waking hides the drawer when the pointer is free and no reveal is
pending; the three steps run in this order. -/
theorem timer_loop_body_steps (st : GState) :
    (st.free = true ∧ st.reset = true →
      timerPreSleep st =
        { prelight := true, revealed := true, free := st.free, reset := false })
    ∧ (st.free = false ∨ st.reset = false → timerPreSleep st = st)
    ∧ canTimeout (intervalOf (Json.str "once")) = false
    ∧ (st.free = true ∧ st.reset = false →
      timerPostWake st =
        { prelight := false, revealed := false, free := st.free, reset := st.reset })
    ∧ (st.free = false ∨ st.reset = true → timerPostWake st = st)
    ∧ timerBody st = timerPostWake (timerPreSleep st) := by
  obtain ⟨p, r, f, q⟩ := st
  cases f <;> cases q <;>
    simp [timerPreSleep, timerPostWake, timerBody, show_group, hide_group,
      canTimeout, intervalOf, Json.eqStr, Json.isUInt]

/-- Witness for C1 at a concrete state with the pointer free and a reveal
pending, and at a concrete state with the pointer free and no reveal
pending. -/
theorem timer_loop_body_steps_witness :
    timerPreSleep ⟨false, false, true, true⟩ =
      { prelight := true, revealed := true, free := true, reset := false }
    ∧ timerPostWake ⟨true, true, true, false⟩ =
      { prelight := false, revealed := false, free := true, reset := false } :=
  ⟨(timer_loop_body_steps ⟨false, false, true, true⟩).1 ⟨rfl, rfl⟩,
   (timer_loop_body_steps ⟨true, true, true, false⟩).2.2.2.1 ⟨rfl, rfl⟩⟩

/-- Claim C2: with clickToReveal false, a pointer-enter clears the
pointer-free flag and reveals; a pointer-leave not into a descendant
(detail other than INFERIOR) sets the pointer-free flag and hides, while
a leave into a descendant changes nothing. -/
theorem hover_mode_pointer_transitions (cfg : Config) (st : GState)
    (d : GdkNotifyType) (h : cfg.clickToReveal = false) :
    ((handleMouseEnter cfg st).1.free = false
      ∧ (handleMouseEnter cfg st).1.revealed = true
      ∧ (handleMouseEnter cfg st).1.prelight = true
      ∧ (handleMouseEnter cfg st).1.reset = st.reset)
    ∧ (d ≠ GdkNotifyType.inferior →
      (handleMouseLeave cfg d st).1.free = true
        ∧ (handleMouseLeave cfg d st).1.revealed = false
        ∧ (handleMouseLeave cfg d st).1.prelight = false
        ∧ (handleMouseLeave cfg d st).1.reset = st.reset)
    ∧ (d = GdkNotifyType.inferior → handleMouseLeave cfg d st = (st, false)) := by
  refine ⟨?_, ?_, ?_⟩
  · simp [handleMouseEnter, show_group, h]
  · intro hd
    simp [handleMouseLeave, hide_group, h, hd]
  · intro hd
    simp [handleMouseLeave, h, hd]

/-- Witness for C2 at a hover-mode configuration, a concrete state and a
non-descendant leave detail. -/
theorem hover_mode_pointer_transitions_witness :
    ((handleMouseEnter ⟨true, false, 0⟩ ⟨false, false, true, false⟩).1.free = false
      ∧ (handleMouseEnter ⟨true, false, 0⟩ ⟨false, false, true, false⟩).1.revealed = true
      ∧ (handleMouseEnter ⟨true, false, 0⟩ ⟨false, false, true, false⟩).1.prelight = true
      ∧ (handleMouseEnter ⟨true, false, 0⟩ ⟨false, false, true, false⟩).1.reset = false)
    ∧ ((handleMouseLeave ⟨true, false, 0⟩ GdkNotifyType.ancestor
        ⟨true, true, false, false⟩).1.free = true
      ∧ (handleMouseLeave ⟨true, false, 0⟩ GdkNotifyType.ancestor
        ⟨true, true, false, false⟩).1.revealed = false
      ∧ (handleMouseLeave ⟨true, false, 0⟩ GdkNotifyType.ancestor
        ⟨true, true, false, false⟩).1.prelight = false
      ∧ (handleMouseLeave ⟨true, false, 0⟩ GdkNotifyType.ancestor
        ⟨true, true, false, false⟩).1.reset = false) :=
  ⟨(hover_mode_pointer_transitions ⟨true, false, 0⟩ ⟨false, false, true, false⟩
      GdkNotifyType.ancestor rfl).1,
   (hover_mode_pointer_transitions ⟨true, false, 0⟩ ⟨true, true, false, false⟩
      GdkNotifyType.ancestor rfl).2.1 (by decide)⟩

/-- Claim C3: with clickToReveal true, a primary-button click toggles the
reveal state (on states where the marker and the reveal state agree), a
non-primary click changes nothing, and pointer enter/leave events change
nothing; with clickToReveal false, a primary click changes nothing. -/
theorem click_mode_transitions (cfg : Config) (st : GState) (b : Nat)
    (d : GdkNotifyType) :
    (cfg.clickToReveal = true →
      (st.prelight = st.revealed →
        (handleToggle cfg 1 st).1.revealed = !st.revealed
          ∧ (handleToggle cfg 1 st).1.prelight = !st.revealed
          ∧ (handleToggle cfg 1 st).1.free = st.free
          ∧ (handleToggle cfg 1 st).1.reset = st.reset)
        ∧ (b ≠ 1 → handleToggle cfg b st = (st, false))
        ∧ handleMouseEnter cfg st = (st, false)
        ∧ handleMouseLeave cfg d st = (st, false))
    ∧ (cfg.clickToReveal = false → handleToggle cfg 1 st = (st, false)) := by
  obtain ⟨p, r, f, q⟩ := st
  constructor
  · intro hc
    refine ⟨?_, ?_, ?_, ?_⟩
    · intro hpr
      cases p <;> cases r <;>
        simp_all [handleToggle, show_group, hide_group, hc]
    · intro hb
      simp [handleToggle, hb, hc]
    · simp [handleMouseEnter, hc]
    · simp [handleMouseLeave, hc]
  · intro hc
    simp [handleToggle, hc]

/-- Witness for C3: a primary click in click-to-reveal mode on a hidden,
marker-consistent state reveals; a secondary click changes nothing. -/
theorem click_mode_transitions_witness :
    ((handleToggle ⟨true, true, 0⟩ 1 ⟨false, false, true, false⟩).1.revealed = true
      ∧ (handleToggle ⟨true, true, 0⟩ 1 ⟨false, false, true, false⟩).1.prelight = true
      ∧ (handleToggle ⟨true, true, 0⟩ 1 ⟨false, false, true, false⟩).1.free = true
      ∧ (handleToggle ⟨true, true, 0⟩ 1 ⟨false, false, true, false⟩).1.reset = false)
    ∧ handleToggle ⟨true, true, 0⟩ 3 ⟨false, false, true, false⟩
        = (⟨false, false, true, false⟩, false) :=
  ⟨((click_mode_transitions ⟨true, true, 0⟩ ⟨false, false, true, false⟩ 3
      GdkNotifyType.ancestor).1 rfl).1 rfl,
   ((click_mode_transitions ⟨true, true, 0⟩ ⟨false, false, true, false⟩ 3
      GdkNotifyType.ancestor).1 rfl).2.1 (by decide)⟩

/-- Claim C4: refresh ignores a non-matching code; on a match it acts as
a synthesized primary click when clickToReveal is true; when
clickToReveal is false it requests a reveal and wakes the timer exactly
when the pointer is free, and otherwise changes nothing. -/
theorem refresh_transitions (cfg : Config) (sig : Int) (st : GState) :
    (sig ≠ SIGRTMIN + cfg.signalNum → refresh cfg sig st = (st, false))
    ∧ (sig = SIGRTMIN + cfg.signalNum →
      (cfg.clickToReveal = true →
        refresh cfg sig st = ((handleToggle cfg 1 st).1, false))
      ∧ (cfg.clickToReveal = false → st.free = true →
        refresh cfg sig st = ({ st with reset := true }, true))
      ∧ (cfg.clickToReveal = false → st.free = false →
        refresh cfg sig st = (st, false))) := by
  obtain ⟨p, r, f, q⟩ := st
  refine ⟨fun hs => by simp [refresh, hs], fun hs => ⟨?_, ?_, ?_⟩⟩
  · intro hc
    cases p <;> simp [refresh, handleToggle, hs, hc, show_group, hide_group]
  · intro hc hf
    simp_all [refresh, handleToggle, hs, hc]
  · intro hc hf
    simp_all [refresh, handleToggle, hs, hc]

/-- Witness for C4: with signal id 3 (matching code SIGRTMIN + 3), hover
mode and a free pointer, refresh sets the pending-reveal flag and wakes
the timer; a non-matching code changes nothing. -/
theorem refresh_transitions_witness :
    refresh ⟨true, false, 3⟩ (SIGRTMIN + 3) ⟨false, false, true, false⟩
      = (⟨false, false, true, true⟩, true)
    ∧ refresh ⟨true, false, 3⟩ 0 ⟨false, false, true, false⟩
      = (⟨false, false, true, false⟩, false) :=
  ⟨((refresh_transitions ⟨true, false, 3⟩ (SIGRTMIN + 3)
      ⟨false, false, true, false⟩).2 rfl).2.1 rfl rfl,
   (refresh_transitions ⟨true, false, 3⟩ 0 ⟨false, false, true, false⟩).1
      (by decide)⟩

/-- Claim C5: with isDrawer false the controller is inert: no event
changes the reveal state or the visual marker. The pointer and click
dispatch guard is modelled from the spec (see `GEvent`); the signal entry
point `refresh`, dispatched for every module, is proved harmless from the
source because a non-drawer Group always has clickToReveal false. -/
theorem non_drawer_inert (gi : GroupInit) (sigN : Int) (ev : GEvent)
    (st : GState) (h : gi.isDrawer = false) :
    (dispatchEvent ⟨gi.isDrawer, gi.clickToReveal, sigN⟩ ev st).revealed
      = st.revealed
    ∧ (dispatchEvent ⟨gi.isDrawer, gi.clickToReveal, sigN⟩ ev st).prelight
      = st.prelight := by
  have hd : gi.drawer = none := by
    cases hgd : gi.drawer <;> simp_all [GroupInit.isDrawer]
  have hc : gi.clickToReveal = false := by
    simp [GroupInit.clickToReveal, hd]
  cases ev with
  | enter => simp [dispatchEvent, h]
  | leave d => simp [dispatchEvent, h]
  | click b => simp [dispatchEvent, h]
  | trigger sig =>
    by_cases hs : sig = SIGRTMIN + sigN
    · by_cases hf : st.free = true <;>
        simp [dispatchEvent, refresh, handleToggle, hc, hs, hf]
    · simp [dispatchEvent, refresh, hs]

/-- Witness for C5: on a non-drawer Group, a matching external trigger
leaves the reveal state and the marker of a concrete state unchanged. -/
theorem non_drawer_inert_witness :
    (dispatchEvent ⟨GroupInit.isDrawer ⟨true, none⟩,
        GroupInit.clickToReveal ⟨true, none⟩, 3⟩
      (GEvent.trigger (SIGRTMIN + 3)) ⟨false, false, true, false⟩).revealed = false
    ∧ (dispatchEvent ⟨GroupInit.isDrawer ⟨true, none⟩,
        GroupInit.clickToReveal ⟨true, none⟩, 3⟩
      (GEvent.trigger (SIGRTMIN + 3)) ⟨false, false, true, false⟩).prelight = false :=
  non_drawer_inert ⟨true, none⟩ 3 (GEvent.trigger (SIGRTMIN + 3))
    ⟨false, false, true, false⟩ rfl

/-- Claim C6 counterexample: a malformed (string-valued) click-to-reveal
field does cause a construction error, because the source converts it
with the unguarded jsoncpp `asBool()` (line 65), unlike the three guarded
fields of lines 56-64; so malformed optional drawer fields are not always
default-substituted silently. -/
theorem drawer_malformed_field_counterexample :
    construct (Json.obj [("drawer",
        Json.obj [("click-to-reveal", Json.str "yes")])]) false
      = Except.error "Value is not convertible to bool" := by rfl

/-- Claim C6 as amended: missing or malformed transition-duration,
children-class and transition-left-to-right fields default silently to
500, "drawer-child" and true; click-to-reveal defaults to false when
missing, but a malformed value is not defaulted: a numeric value is
coerced (nonzero test) and a non-convertible value (a string) is a
construction error. -/
theorem drawer_field_defaults_amended (fields : List (String × Json))
    (ij : Json) :
    ((Json.obj fields |>.get "transition-duration").isInt = false →
      ∀ d, extractDrawer (Json.obj fields) ij = Except.ok d →
        d.transitionDuration = 500)
    ∧ ((Json.obj fields |>.get "children-class").isString = false →
      ∀ d, extractDrawer (Json.obj fields) ij = Except.ok d →
        d.childClass = "drawer-child")
    ∧ ((Json.obj fields |>.get "transition-left-to-right").isBool = false →
      ∀ d, extractDrawer (Json.obj fields) ij = Except.ok d →
        d.leftToRight = true)
    ∧ ((Json.obj fields |>.get "click-to-reveal") = Json.null →
      ∃ d, extractDrawer (Json.obj fields) ij = Except.ok d
        ∧ d.clickToReveal = false)
    ∧ (∀ b, (Json.obj fields |>.get "click-to-reveal") = Json.bool b →
      ∃ d, extractDrawer (Json.obj fields) ij = Except.ok d
        ∧ d.clickToReveal = b)
    ∧ (∀ i, (Json.obj fields |>.get "click-to-reveal") = Json.int i →
      ∃ d, extractDrawer (Json.obj fields) ij = Except.ok d
        ∧ d.clickToReveal = decide (i ≠ 0))
    ∧ (∀ s, (Json.obj fields |>.get "click-to-reveal") = Json.str s →
      extractDrawer (Json.obj fields) ij
        = Except.error "Value is not convertible to bool") := by
  refine ⟨?_, ?_, ?_, ?_, ?_, ?_, ?_⟩
  · intro h d hok
    cases hb : Json.asBoolE (Json.get (Json.obj fields) "click-to-reveal") with
    | error e => simp [extractDrawer, hb] at hok
    | ok b =>
      simp [extractDrawer, hb] at hok
      rw [← hok]
      cases hj : Json.get (Json.obj fields) "transition-duration" <;>
        simp_all [Json.isInt]
  · intro h d hok
    cases hb : Json.asBoolE (Json.get (Json.obj fields) "click-to-reveal") with
    | error e => simp [extractDrawer, hb] at hok
    | ok b =>
      simp [extractDrawer, hb] at hok
      rw [← hok]
      cases hj : Json.get (Json.obj fields) "children-class" <;>
        simp_all [Json.isString]
  · intro h d hok
    cases hb : Json.asBoolE (Json.get (Json.obj fields) "click-to-reveal") with
    | error e => simp [extractDrawer, hb] at hok
    | ok b =>
      simp [extractDrawer, hb] at hok
      rw [← hok]
      cases hj : Json.get (Json.obj fields) "transition-left-to-right" <;>
        simp_all [Json.isBool]
  · intro h
    simp [extractDrawer, h, Json.asBoolE]
  · intro b h
    simp [extractDrawer, h, Json.asBoolE]
  · intro i h
    simp [extractDrawer, h, Json.asBoolE]
  · intro s h
    simp [extractDrawer, h, Json.asBoolE]

/-- Witness for C6 as amended: an empty drawer object takes all four
defaults, and a numeric click-to-reveal is coerced to true. -/
theorem drawer_field_defaults_amended_witness :
    (∃ d, extractDrawer (Json.obj []) Json.null = Except.ok d
      ∧ d.clickToReveal = false)
    ∧ (∃ d, extractDrawer (Json.obj [("click-to-reveal", Json.int 5)])
        Json.null = Except.ok d ∧ d.clickToReveal = decide ((5 : Int) ≠ 0)) :=
  ⟨(drawer_field_defaults_amended [] Json.null).2.2.2.1 rfl,
   (drawer_field_defaults_amended [("click-to-reveal", Json.int 5)]
      Json.null).2.2.2.2.2.1 5 rfl⟩

/-- For a non-drawer Group every added widget is packed into the main box
and no style class is applied. -/
theorem addAll_non_drawer_fields (ws : List Nat) (st : PackState) :
    (addAll false ws st).primary = st.primary ++ ws
    ∧ (addAll false ws st).overlay = st.overlay
    ∧ (addAll false ws st).styled = st.styled := by
  induction ws generalizing st with
  | nil => simp [addAll]
  | cons w ws ih =>
    have := ih { st with primary := st.primary ++ [w], is_first_widget := false }
    simp_all [addAll, addWidget, getBox]

/-- Once the first widget has been added to a drawer Group, every further
widget goes to the revealer box, in call order, and is tagged with the
drawer-children class. -/
theorem addAll_drawer_after_first (ws : List Nat) (st : PackState)
    (h : st.is_first_widget = false) :
    addAll true ws st =
      { st with overlay := st.overlay ++ ws, styled := st.styled ++ ws,
                is_first_widget := false } := by
  induction ws generalizing st with
  | nil =>
    obtain ⟨sp, so, ss, sf⟩ := st
    simp_all [addAll]
  | cons w ws ih =>
    have := ih { st with overlay := st.overlay ++ [w],
                         styled := st.styled ++ [w], is_first_widget := false }
      rfl
    simp_all [addAll, addWidget, getBox, h]

/-- Claim C7: on a drawer Group the first added widget lands in the main
box with no style class, and every later widget is appended to the
revealer box in call order and tagged with the drawer-children class; on
a non-drawer Group every widget lands in the main box and no class is
ever applied. -/
theorem child_placement (w : Nat) (ws : List Nat) :
    addAll true (w :: ws) initPack
      = { primary := [w], overlay := ws, styled := ws,
          is_first_widget := false }
    ∧ (addAll false (w :: ws) initPack).primary = w :: ws
    ∧ (addAll false (w :: ws) initPack).overlay = []
    ∧ (addAll false (w :: ws) initPack).styled = [] := by
  have h1 : addWidget true w initPack
      = { primary := [w], overlay := [], styled := [],
          is_first_widget := false } := by rfl
  have h2 := addAll_drawer_after_first ws
    { primary := [w], overlay := [], styled := [], is_first_widget := false }
    rfl
  have h3 := addAll_non_drawer_fields (w :: ws) initPack
  refine ⟨?_, by simpa [initPack] using h3.1, by simpa [initPack] using h3.2.1,
    by simpa [initPack] using h3.2.2⟩
  calc addAll true (w :: ws) initPack
      = addAll true ws (addWidget true w initPack) := by simp [addAll]
    _ = { primary := [w], overlay := ws, styled := ws,
          is_first_widget := false } := by rw [h1, h2]; simp

/-- Claim C8 counterexample: an orientation value that is none of the
four valid values does not always fail construction: jsoncpp `empty()`
is true for an empty object, so line 39 silently substitutes the default
"orthogonal" and construction succeeds. -/
theorem orientation_outside_set_counterexample :
    construct (Json.obj [("orientation", Json.obj [])]) false
      = Except.ok ⟨true, none⟩ := by rfl

/-- Claim C8 as amended: a non-empty orientation value whose jsoncpp
string form is outside the four valid values fails construction with the
invalid-orientation error; each of the four valid values, an absent
field, a null value and an empty object (both empty in the jsoncpp
sense, hence treated as absent) succeed, defaulting to orthogonal. -/
theorem orientation_validation_amended (s : String) (v : Bool)
    (h : s ≠ "inherit" ∧ s ≠ "orthogonal" ∧ s ≠ "vertical"
      ∧ s ≠ "horizontal") :
    construct (Json.obj [("orientation", Json.str s)]) v
      = Except.error ("Invalid orientation value: " ++ s)
    ∧ construct (Json.obj [("orientation", Json.str "inherit")]) v
      = Except.ok ⟨v, none⟩
    ∧ construct (Json.obj [("orientation", Json.str "orthogonal")]) v
      = Except.ok ⟨!v, none⟩
    ∧ construct (Json.obj [("orientation", Json.str "vertical")]) v
      = Except.ok ⟨true, none⟩
    ∧ construct (Json.obj [("orientation", Json.str "horizontal")]) v
      = Except.ok ⟨false, none⟩
    ∧ construct (Json.obj []) v = Except.ok ⟨!v, none⟩
    ∧ construct (Json.obj [("orientation", Json.null)]) v
      = Except.ok ⟨!v, none⟩
    ∧ construct (Json.obj [("orientation", Json.obj [])]) v
      = Except.ok ⟨!v, none⟩ := by
  obtain ⟨h1, h2, h3, h4⟩ := h
  refine ⟨?_, by cases v <;> rfl, by cases v <;> rfl, by cases v <;> rfl,
    by cases v <;> rfl, by cases v <;> rfl, by cases v <;> rfl,
    by cases v <;> rfl⟩
  have horient : orientationOf (Json.str s) v
      = Except.error ("Invalid orientation value: " ++ s) := by
    simp [orientationOf, Json.isEmptyVal, Json.asStringE, h1, h2, h3, h4]
  simp [construct, Json.get, List.find?, horient]

/-- Witness for C8 as amended at the invalid orientation string
"diagonal". -/
theorem orientation_validation_amended_witness :
    construct (Json.obj [("orientation", Json.str "diagonal")]) false
      = Except.error ("Invalid orientation value: " ++ "diagonal") :=
  (orientation_validation_amended "diagonal" false (by decide)).1

/-- Claim C9: hiding is idempotent: hide composed with itself equals a
single hide, and hiding an already hidden Group (reveal state false,
marker clear) changes nothing at all. -/
theorem hide_group_idempotent (st : GState) :
    hide_group (hide_group st) = hide_group st
    ∧ (st.revealed = false ∧ st.prelight = false → hide_group st = st) := by
  obtain ⟨p, r, f, q⟩ := st
  constructor
  · rfl
  · rintro ⟨hr, hp⟩
    simp_all [hide_group]

/-- Witness for C9 at a concrete already-hidden state. -/
theorem hide_group_idempotent_witness :
    hide_group (hide_group ⟨false, false, true, false⟩)
      = hide_group ⟨false, false, true, false⟩
    ∧ hide_group ⟨false, false, true, false⟩ = ⟨false, false, true, false⟩ :=
  ⟨(hide_group_idempotent ⟨false, false, true, false⟩).1,
   (hide_group_idempotent ⟨false, false, true, false⟩).2 ⟨rfl, rfl⟩⟩

/-- Claim C10: the visual marker (PRELIGHT) and the reveal state agree in
the initial state (both cleared) and under every operation, because all
of them go through show_group / hide_group, which set both together; and
the click toggle reads its direction from the marker. -/
theorem marker_state_agreement (cfg : Config) (st : GState)
    (d : GdkNotifyType) (b : Nat) (sig : Int) :
    (∀ f q, consistent ⟨false, false, f, q⟩)
    ∧ (consistent st →
      consistent (handleMouseEnter cfg st).1
      ∧ consistent (handleMouseLeave cfg d st).1
      ∧ consistent (handleToggle cfg b st).1
      ∧ consistent (refresh cfg sig st).1
      ∧ consistent (timerBody st)
      ∧ consistent (show_group st)
      ∧ consistent (hide_group st))
    ∧ (cfg.clickToReveal = true →
      (handleToggle cfg 1 st).1.revealed = !st.prelight) := by
  obtain ⟨p, r, f, q⟩ := st
  refine ⟨fun f q => rfl, fun hco => ?_, fun hc => ?_⟩
  · have hpr : p = r := hco
    subst hpr
    refine ⟨?_, ?_, ?_, ?_, ?_, rfl, rfl⟩
    · by_cases hc : cfg.clickToReveal = true <;>
        simp [handleMouseEnter, show_group, hc, consistent]
    · by_cases hc : cfg.clickToReveal = true <;>
        by_cases hd : d = GdkNotifyType.inferior <;>
        simp [handleMouseLeave, hide_group, hc, hd, consistent]
    · by_cases hc : cfg.clickToReveal = true <;> by_cases hb : b = 1 <;>
        cases p <;>
        simp_all [handleToggle, show_group, hide_group, consistent]
    · by_cases hs : sig = SIGRTMIN + cfg.signalNum <;>
        by_cases hc : cfg.clickToReveal = true <;> cases p <;> cases f <;>
        simp_all [refresh, handleToggle, show_group, hide_group, consistent]
    · cases f <;> cases q <;>
        simp_all [timerBody, timerPreSleep, timerPostWake, show_group,
          hide_group, consistent]
  · cases p <;> simp [handleToggle, hc, show_group, hide_group]

/-- Witness for C10: the marker-reveal agreement is kept by a primary
click on a concrete agreeing state. -/
theorem marker_state_agreement_witness :
    consistent (handleToggle ⟨true, true, 2⟩ 1 ⟨true, true, true, false⟩).1
    ∧ (handleToggle ⟨true, true, 2⟩ 1 ⟨true, true, true, false⟩).1.revealed
      = !true :=
  ⟨((marker_state_agreement ⟨true, true, 2⟩ ⟨true, true, true, false⟩
      GdkNotifyType.ancestor 1 0).2.1 rfl).2.2.1,
   (marker_state_agreement ⟨true, true, 2⟩ ⟨true, true, true, false⟩
      GdkNotifyType.ancestor 1 0).2.2 rfl⟩

end Waybar
